import Mathlib

/-
Verification of the provider-adapter / result-normalization / history layer
of the AI_CHAT_BACKEND repository.

The Python sources are shallowly embedded as executable Lean definitions:
  * Python dicts become association lists `PyDict := List (String × PyVal)`
    (insertion ordered, first binding wins on lookup, assignment replaces
    in place or appends), and JSON-ish values become the inductive `PyVal`.
  * Network effects are made explicit: each adapter takes the outcome the
    HTTP transport would produce (`NetOutcome`) as an argument and returns,
    next to its result dict, the list of request payloads it actually sent.
    An adapter that fails fast therefore returns an empty sent-list and a
    result independent of the transport outcome.
  * Machine strings are Lean `String`s; Python `str.strip`/`startswith`
    are modelled on the underlying `List Char` (ASCII whitespace).
  * Python `int(...)` string parsing is modelled for ASCII inputs
    (optional surrounding whitespace, optional sign, digits with single
    underscores between digits), and Python float `round` is modelled as
    exact half-to-even rounding over `ℚ` (CPython computes the correctly
    rounded true quotient for `int / int`, so the low-order rounding
    differences cannot affect any property proved here).
-/

/-- Python-style JSON-ish runtime value. -/
inductive PyVal where
  | none
  | bool (b : Bool)
  | int (n : Int)
  | str (s : String)
  | list (xs : List PyVal)
  | dict (xs : List (String × PyVal))

/-- A Python dict with string keys, in insertion order. -/
abbrev PyDict := List (String × PyVal)

/-- Lookup of a key in a dict (`d[k]` / `d.get(k)`), first binding wins. -/
def pyGet : PyDict → String → Option PyVal
  | [], _ => Option.none
  | (k', v) :: rest, k => if k' = k then some v else pyGet rest k

/-- `k in d` for dicts. -/
def hasKey (d : PyDict) (k : String) : Bool :=
  (pyGet d k).isSome

/-- Dict assignment `d[k] = v`: replaces the first binding of `k` in place,
or appends a new binding at the end. -/
def pySet : PyDict → String → PyVal → PyDict
  | [], k, v => [(k, v)]
  | (k', v') :: rest, k, v =>
    if k' = k then (k, v) :: rest else (k', v') :: pySet rest k v

/-- Python truthiness of a value. -/
def pyTruthy : PyVal → Bool
  | .none => false
  | .bool b => b
  | .int n => n != 0
  | .str s => s ≠ ""
  | .list xs => !xs.isEmpty
  | .dict xs => !xs.isEmpty

/-- Python `a or b` on values. -/
def pyOr (a b : PyVal) : PyVal :=
  if pyTruthy a then a else b

/-- `v == "lit"`: Python equality of a runtime value against a string literal. -/
def pyEqStr (v : PyVal) (s : String) : Bool :=
  match v with
  | .str t => t = s
  | _ => false

/-- Best-effort `str(v)` (only the cases reached by the adapters matter). -/
def pyStr : PyVal → String
  | .none => "None"
  | .bool b => if b then "True" else "False"
  | .int n => toString n
  | .str s => s
  | .list _ => "[...]"
  | .dict _ => "\x7b...\x7d"

/-- Truthiness of an optional credential string (`if not self.api_key`). -/
def keyTruthy : Option String → Bool
  | Option.none => false
  | some s => s ≠ ""

/-- ASCII whitespace, as stripped by `str.strip()`. -/
def isSpc (c : Char) : Bool :=
  c = ' ' || c = '\t' || c = '\n' || c = '\r' || c = '\x0b' || c = '\x0c'

/-- `str.strip()` on the character list: drop whitespace at both ends. -/
def pyStripL (cs : List Char) : List Char :=
  ((cs.dropWhile isSpc).reverse.dropWhile isSpc).reverse

/-- `str.strip()`. -/
def pyStrip (s : String) : String :=
  String.mk (pyStripL s.data)

/-- `s.startswith(pat)` on character lists (recursion on the pattern). -/
def startsW : List Char → List Char → Bool
  | [], _ => true
  | _ :: _, [] => false
  | p :: ps, c :: cs => p = c && startsW ps cs

/-- `s.startswith(pat)`. -/
def pyStartswith (s pat : String) : Bool :=
  startsW pat.data s.data

/-- `pat in s`: substring test. -/
def containsSub : List Char → List Char → Bool
  | s, pat =>
    if startsW pat s then true
    else
      match s with
      | [] => false
      | _ :: rest => containsSub rest pat

/-- `pat in s` on strings. -/
def pyInStr (pat s : String) : Bool :=
  containsSub s.data pat.data

/-- Digit run of a Python integer literal after the first digit: digits with
single underscores allowed between digits. -/
def pyDigitsAux : List Char → Nat → Option Nat
  | [], acc => some acc
  | '_' :: c :: rest, acc =>
    if c.isDigit then pyDigitsAux rest (acc * 10 + (c.toNat - 48)) else Option.none
  | c :: rest, acc =>
    if c.isDigit then pyDigitsAux rest (acc * 10 + (c.toNat - 48)) else Option.none

/-- Unsigned part of Python `int(...)`: must start with a digit. -/
def pyNatCore : List Char → Option Nat
  | [] => Option.none
  | c :: rest => if c.isDigit then pyDigitsAux rest (c.toNat - 48) else Option.none

/-- Python `int(s)` for ASCII strings: strip whitespace, optional sign,
then digits; `Option.none` models the raised `ValueError`. -/
def pyInt : String → Option Int
  | s =>
    match pyStripL s.data with
    | '+' :: rest => (pyNatCore rest).map Int.ofNat
    | '-' :: rest => (pyNatCore rest).map (fun n => -(n : Int))
    | cs => (pyNatCore cs).map Int.ofNat

/-- Python 3 `round` on an exact rational: round half to even. -/
def pyRound (q : ℚ) : ℤ :=
  let f := ⌊q⌋
  let r := q - (f : ℚ)
  if r < 1/2 then f
  else if 1/2 < r then f + 1
  else if f % 2 = 0 then f else f + 1

namespace DoubaoImageService

/-- `DoubaoImageService._parse_ratio` (src/services/doubao_image.py:161-166):
split on `:`, parse both parts as ints clamped to at least 1; any exception
(missing part or unparsable int) falls back to `(1, 1)`. -/
def parse_ratio (ratio : String) : Int × Int :=
  match ratio.splitOn ":" with
  | p0 :: p1 :: _ =>
    match pyInt p0, pyInt p1 with
    | some a, some b => (max 1 a, max 1 b)
    | _, _ => (1, 1)
  | _ => (1, 1)

/-- The `base_map.get(image_size.upper(), 1024)` step of `_build_size`. -/
def sizeBase (imageSize : String) : Int :=
  let u := imageSize.toUpper
  if u = "1K" then 1024
  else if u = "2K" then 2048
  else if u = "4K" then 4096
  else 1024

/-- `DoubaoImageService._build_size` (src/services/doubao_image.py:141-159),
returning the `(width, height)` pair before string formatting. -/
def build_size_wh (aspectRatio imageSize : String) : Int × Int :=
  let base := sizeBase imageSize
  let wr := (parse_ratio aspectRatio).1
  let hr := (parse_ratio aspectRatio).2
  let w0 : Int :=
    if wr ≥ hr then base
    else max 512 (pyRound ((base * wr : ℤ) / (max hr 1 : ℚ)))
  let h0 : Int :=
    if wr ≥ hr then max 512 (pyRound ((base * hr : ℤ) / (max wr 1 : ℚ)))
    else base
  (max 512 (min 4096 w0), max 512 (min 4096 h0))

/-- `_build_size`'s final `f"{width}x{height}"` string. -/
def build_size (aspectRatio imageSize : String) : String :=
  let wh := build_size_wh aspectRatio imageSize
  let w := wh.1
  let h := wh.2
  s!"{w}x{h}"

/-- The `"data:"` prefix tested by `_ensure_data_url`. -/
def dataColon : List Char := "data:".data

/-- The default header `"data:image/png;base64,"` prepended by
`_ensure_data_url`. -/
def pngHeader : List Char := "data:image/png;base64,".data

/-- `DoubaoImageService._ensure_data_url` (src/services/doubao_image.py:173-179)
on character lists: empty values pass through, otherwise strip and either keep
an existing `data:` prefix or prepend the default png data-URL header. -/
def ensure_data_url_L (cs : List Char) : List Char :=
  if cs = [] then cs
  else
    let trimmed := pyStripL cs
    if startsW dataColon trimmed then trimmed
    else pngHeader ++ trimmed

/-- `DoubaoImageService._ensure_data_url` on strings. -/
def ensure_data_url (s : String) : String :=
  String.mk (ensure_data_url_L s.data)

end DoubaoImageService

/-- Outcome of one HTTP round-trip, supplied to each adapter in place of the
real transport: `ok status text data` is a completed response whose body text
is `text` and whose JSON body parses to the dict `data` (branches that never
call `.json()` ignore `data`); `timeout` is `httpx.TimeoutException` (resp.
the socket `TimeoutError`); `raised msg` is any other exception thrown inside
the adapter's `try` block, including a body that fails to parse as a JSON
dict. -/
inductive NetOutcome where
  | ok (status : Nat) (text : String) (data : PyDict)
  | timeout
  | raised (msg : String)

/-- An adapter call's observable effect: the returned result dict together
with the list of request payloads actually handed to the HTTP transport
(empty iff the network-request step was never reached). -/
abbrev AdapterRun := PyDict × List PyDict

namespace DalleService

/-- `DalleService.generate_image` (src/services/dalle.py:13-75). Note the
failure branches use an `"error"` key, not `"message"`, and the success dict
carries no narration at all. Any exception while digging
`data["data"][0]["url"]` out of a 200 body is caught by the blanket
`except Exception` branch. -/
def generate_image (apiKey : Option String) (prompt : String)
    (size : String := "1024x1024") (quality : String := "standard")
    (n : Int := 1) (net : NetOutcome) : AdapterRun :=
  if !keyTruthy apiKey then
    ([("success", .bool false), ("error", .str "DALL-E API key not configured")], [])
  else
    let payload : PyDict :=
      [("model", .str "dall-e-3"), ("prompt", .str prompt),
       ("size", .str size), ("quality", .str quality), ("n", .int n)]
    let failed : String → PyDict := fun e =>
      [("success", .bool false), ("error", .str s!"DALL-E generation failed: {e}")]
    match net with
    | .timeout => (failed "request timed out", [payload])
    | .raised e => (failed e, [payload])
    | .ok status text data =>
      if status = 200 then
        -- data["data"][0]["url"]; any KeyError/IndexError/TypeError is caught
        -- by the blanket handler
        match pyGet data "data" with
        | some (.list (.dict d0 :: _)) =>
          match pyGet d0 "url" with
          | some u =>
            ([("success", .bool true), ("image_url", u),
              ("metadata", .dict
                [("revised_prompt", (pyGet d0 "revised_prompt").getD .none),
                 ("size", .str size), ("quality", .str quality)])], [payload])
          | Option.none => (failed "KeyError: url", [payload])
        | _ => (failed "response body lacks data[0]", [payload])
      else
        ([("success", .bool false),
          ("error", .str s!"DALL-E API error: {status} - {text}")], [payload])

end DalleService

namespace StableDiffusionService

/-- `StableDiffusionService.generate_image` (src/services/stable_diffusion.py:13-85).
As with DALL-E, failures carry `"error"` and the success dict has no
`"message"`. -/
def generate_image (apiKey : Option String) (prompt : String)
    (width : Int := 1024) (height : Int := 1024) (steps : Int := 30)
    (net : NetOutcome) : AdapterRun :=
  if !keyTruthy apiKey then
    ([("success", .bool false), ("error", .str "Stability AI API key not configured")], [])
  else
    let payload : PyDict :=
      [("text_prompts", .list [.dict [("text", .str prompt), ("weight", .int 1)]]),
       ("cfg_scale", .int 7), ("height", .int height), ("width", .int width),
       ("steps", .int steps), ("samples", .int 1)]
    let failed : String → PyDict := fun e =>
      [("success", .bool false), ("error", .str s!"Stable Diffusion generation failed: {e}")]
    match net with
    | .timeout => (failed "request timed out", [payload])
    | .raised e => (failed e, [payload])
    | .ok status text data =>
      if status = 200 then
        -- data["artifacts"][0]["base64"]
        match pyGet data "artifacts" with
        | some (.list (.dict a0 :: _)) =>
          match pyGet a0 "base64" with
          | some b64 =>
            ([("success", .bool true), ("image_data", b64),
              ("metadata", .dict
                [("width", .int width), ("height", .int height),
                 ("steps", .int steps),
                 ("seed", (pyGet a0 "seed").getD .none)])], [payload])
          | Option.none => (failed "KeyError: base64", [payload])
        | _ => (failed "response body lacks artifacts[0]", [payload])
      else
        ([("success", .bool false),
          ("error", .str s!"Stability AI error: {status} - {text}")], [payload])

end StableDiffusionService

namespace ChatService

/-- `ChatService.chat_completion` (src/services/chat_service.py:22-83).
`messages` is forwarded unmodified; the 200 branch extracts
`data["choices"][0]["message"]["content"]`, and a missing field raises a
`KeyError` that the blanket handler converts to a failure dict. -/
def chat_completion (apiKey : Option String) (selfModel : String)
    (messages : List PyVal) (model : Option String := Option.none)
    (net : NetOutcome) : AdapterRun :=
  if !keyTruthy apiKey then
    ([("success", .bool false), ("message", .str "API key not configured")], [])
  else
    let targetModel :=
      match model with
      | some m => if m ≠ "" then m else selfModel
      | Option.none => selfModel
    let payload : PyDict :=
      [("model", .str targetModel), ("messages", .list messages)]
    let failed : String → PyDict := fun e =>
      [("success", .bool false), ("message", .str s!"Request failed: {e}")]
    match net with
    | .timeout => (failed "request timed out", [payload])
    | .raised e => (failed e, [payload])
    | .ok status text data =>
      if status = 200 then
        match pyGet data "choices" with
        | some (.list (.dict c0 :: _)) =>
          match pyGet c0 "message" with
          | some (.dict m0) =>
            match pyGet m0 "content" with
            | some content =>
              ([("success", .bool true), ("message", content),
                ("data", .dict data)], [payload])
            | Option.none => (failed "KeyError: content", [payload])
          | _ => (failed "KeyError: message", [payload])
        | _ => (failed "KeyError: choices", [payload])
      else
        ([("success", .bool false),
          ("message", .str s!"API Error: {status} - {text}")], [payload])

end ChatService

namespace MimoChatService

/-- `MimoChatService.chat_completion` (src/services/mimo_chat.py:25-89).
The 200 branch uses defaulting `.get` chains
(`data.get("choices", [{}])[0].get("message", {}).get("content", "")`);
an empty `choices` list or a non-dict element still raises and lands in the
blanket handler. -/
def chat_completion (apiKey : Option String) (selfModel : String)
    (temperature topP : PyVal) (maxCompletionTokens : Int)
    (messages : List PyVal) (model : Option String := Option.none)
    (net : NetOutcome) : AdapterRun :=
  if !keyTruthy apiKey then
    ([("success", .bool false), ("message", .str "MiMO API key not configured")], [])
  else
    let targetModel :=
      match model with
      | some m => if m ≠ "" then m else selfModel
      | Option.none => selfModel
    let payload : PyDict :=
      [("model", .str targetModel), ("messages", .list messages),
       ("max_completion_tokens", .int maxCompletionTokens),
       ("temperature", temperature), ("top_p", topP),
       ("stream", .bool false), ("frequency_penalty", .int 0),
       ("presence_penalty", .int 0),
       ("extra_body", .dict [("thinking", .dict [("type", .str "disabled")])])]
    let failed : String → PyDict := fun e =>
      [("success", .bool false), ("message", .str s!"MiMO request failed: {e}")]
    match net with
    | .timeout =>
      ([("success", .bool false), ("message", .str "MiMO request timed out")], [payload])
    | .raised e => (failed e, [payload])
    | .ok status text data =>
      if status = 200 then
        match (pyGet data "choices").getD (.list [.dict []]) with
        | .list (.dict c0 :: _) =>
          match (pyGet c0 "message").getD (.dict []) with
          | .dict m0 =>
            let content := (pyGet m0 "content").getD (.str "")
            ([("success", .bool true), ("message", content),
              ("data", .dict data)], [payload])
          | _ => (failed "AttributeError: get", [payload])
        | .list [] => (failed "IndexError: list index out of range", [payload])
        | _ => (failed "TypeError: not subscriptable", [payload])
      else
        ([("success", .bool false),
          ("message", .str s!"MiMO API error: {status} - {text}")], [payload])

end MimoChatService

/-- Shared shape of the `query_video` 200-branch of Sora and VEO
(src/services/sora_video.py:158-184, src/services/veo_video.py:165-191):
build the base result dict, then overwrite/append fields depending on the
provider status string. `doneMsg` is the provider-specific completion
message. -/
def queryVideo200 (taskId : String) (data : PyDict) (doneMsg : String) : PyDict :=
  let status := (pyGet data "status").getD (.str "unknown")
  let videoUrl := (pyGet data "video_url").getD .none
  let enhancedPrompt := (pyGet data "enhanced_prompt").getD .none
  let result : PyDict :=
    [("success", .bool true), ("task_id", .str taskId),
     ("status", status), ("enhanced_prompt", enhancedPrompt)]
  if pyEqStr status "completed" && pyTruthy videoUrl then
    pySet (pySet result "video_url" videoUrl) "message" (.str doneMsg)
  else if pyEqStr status "failed" then
    pySet (pySet result "success" (.bool false)) "message" (.str "视频生成失败")
  else if pyEqStr status "pending" then
    pySet result "message" (.str "视频正在排队中...")
  else if pyEqStr status "processing" then
    pySet result "message" (.str "视频正在生成中...")
  else
    let st := pyStr status
    pySet result "message" (.str s!"状态: {st}")

namespace SoraVideoService

/-- `SoraVideoService.create_video` (src/services/sora_video.py:20-121):
coerces `orientation` to `landscape` and `duration` to `15` when out of
range, posts the payload, and extracts `id`/`status` from a 200 body. -/
def create_video (apiKey : Option String) (selfModel : String) (prompt : String)
    (orientation : String := "landscape") (duration : Int := 15)
    (watermark : Bool := false) (residentPrivate : Bool := true)
    (images : Option (List String) := Option.none)
    (net : NetOutcome) : AdapterRun :=
  if !keyTruthy apiKey then
    ([("success", .bool false), ("message", .str "Sora API key not configured")], [])
  else
    let orientation :=
      if orientation = "portrait" ∨ orientation = "landscape" then orientation
      else "landscape"
    let duration := if duration = 15 ∨ duration = 25 then duration else 15
    let imagesVal : PyVal :=
      match images with
      | some l => if l.isEmpty then .list [] else .list (l.map PyVal.str)
      | Option.none => .list []
    let payload : PyDict :=
      [("model", .str selfModel), ("prompt", .str prompt),
       ("orientation", .str orientation), ("size", .str "large"),
       ("duration", .int duration), ("watermark", .bool watermark),
       ("private", .bool residentPrivate), ("images", imagesVal)]
    match net with
    | .timeout =>
      ([("success", .bool false),
        ("message", .str "Sora request timed out. Please try again.")], [payload])
    | .raised e =>
      ([("success", .bool false),
        ("message", .str s!"Sora video creation failed: {e}")], [payload])
    | .ok status text data =>
      if status = 200 then
        let taskId := (pyGet data "id").getD .none
        let taskStatus := (pyGet data "status").getD (.str "pending")
        if !pyTruthy taskId then
          ([("success", .bool false),
            ("message", .str "No task ID returned from API"),
            ("raw_response", .dict data)], [payload])
        else
          ([("success", .bool true), ("task_id", taskId),
            ("status", taskStatus), ("message", .str "视频生成任务已创建"),
            ("metadata", .dict
              [("model", .str selfModel), ("orientation", .str orientation),
               ("duration", .int duration), ("prompt", .str prompt)])], [payload])
      else
        ([("success", .bool false),
          ("message", .str s!"Sora API error: {status} - {text}")], [payload])

/-- `SoraVideoService.query_video` (src/services/sora_video.py:123-195).
The sent request is the GET's `params` dict. -/
def query_video (apiKey : Option String) (taskId : String)
    (net : NetOutcome) : AdapterRun :=
  if !keyTruthy apiKey then
    ([("success", .bool false), ("message", .str "Sora API key not configured")], [])
  else
    let params : PyDict := [("id", .str taskId)]
    match net with
    | .timeout =>
      ([("success", .bool false),
        ("message", .str "Query request timed out. Please try again.")], [params])
    | .raised e =>
      ([("success", .bool false),
        ("message", .str s!"Failed to query video status: {e}")], [params])
    | .ok status text data =>
      if status = 200 then
        (queryVideo200 taskId data "视频生成完成", [params])
      else
        ([("success", .bool false),
          ("message", .str s!"Sora API error: {status} - {text}")], [params])

end SoraVideoService

namespace VeoVideoService

/-- The fixed `MODELS` list (src/services/veo_video.py:9-12). -/
def MODELS : List String :=
  ["veo2", "veo2-fast", "veo2-fast-frames", "veo2-fast-components", "veo2-pro",
   "veo3", "veo3-fast", "veo3-pro", "veo3-pro-frames", "veo3-fast-frames",
   "veo3-frames"]

/-- `VeoVideoService.create_video` (src/services/veo_video.py:26-128):
takes a per-call model override (`model or self.model`), coerces
`aspect_ratio` to `16:9` when out of range, and appends an `images` key to
the payload only when a non-empty image list was supplied. -/
def create_video (apiKey : Option String) (selfModel : String) (prompt : String)
    (model : Option String := Option.none) (aspectRatio : String := "16:9")
    (enhancePrompt : Bool := true) (enableUpsample : Bool := true)
    (images : Option (List String) := Option.none)
    (net : NetOutcome) : AdapterRun :=
  if !keyTruthy apiKey then
    ([("success", .bool false), ("message", .str "VEO API key not configured")], [])
  else
    let useModel :=
      match model with
      | some m => if m ≠ "" then m else selfModel
      | Option.none => selfModel
    let aspectRatio :=
      if aspectRatio = "16:9" ∨ aspectRatio = "9:16" then aspectRatio else "16:9"
    let basePayload : PyDict :=
      [("model", .str useModel), ("prompt", .str prompt),
       ("enhance_prompt", .bool enhancePrompt),
       ("enable_upsample", .bool enableUpsample),
       ("aspect_ratio", .str aspectRatio)]
    let payload : PyDict :=
      match images with
      | some l =>
        if l.isEmpty then basePayload
        else pySet basePayload "images" (.list (l.map PyVal.str))
      | Option.none => basePayload
    match net with
    | .timeout =>
      ([("success", .bool false),
        ("message", .str "VEO request timed out. Please try again.")], [payload])
    | .raised e =>
      ([("success", .bool false),
        ("message", .str s!"VEO video creation failed: {e}")], [payload])
    | .ok status text data =>
      if status = 200 then
        let taskId := (pyGet data "id").getD .none
        let taskStatus := (pyGet data "status").getD (.str "pending")
        if !pyTruthy taskId then
          ([("success", .bool false),
            ("message", .str "No task ID returned from API"),
            ("raw_response", .dict data)], [payload])
        else
          ([("success", .bool true), ("task_id", taskId),
            ("status", taskStatus), ("message", .str "VEO 视频生成任务已创建"),
            ("metadata", .dict
              [("model", .str useModel), ("aspect_ratio", .str aspectRatio),
               ("enhance_prompt", .bool enhancePrompt),
               ("prompt", .str prompt)])], [payload])
      else
        ([("success", .bool false),
          ("message", .str s!"VEO API error: {status} - {text}")], [payload])

/-- `VeoVideoService.query_video` (src/services/veo_video.py:130-202). -/
def query_video (apiKey : Option String) (taskId : String)
    (net : NetOutcome) : AdapterRun :=
  if !keyTruthy apiKey then
    ([("success", .bool false), ("message", .str "VEO API key not configured")], [])
  else
    let params : PyDict := [("id", .str taskId)]
    match net with
    | .timeout =>
      ([("success", .bool false),
        ("message", .str "Query request timed out. Please try again.")], [params])
    | .raised e =>
      ([("success", .bool false),
        ("message", .str s!"Failed to query video status: {e}")], [params])
    | .ok status text data =>
      if status = 200 then
        (queryVideo200 taskId data "VEO 视频生成完成", [params])
      else
        ([("success", .bool false),
          ("message", .str s!"VEO API error: {status} - {text}")], [params])

end VeoVideoService

namespace GeminiImageService

/-- `GeminiImageService._split_reference_image`
(src/services/gemini_image.py:188-201): strip, keep the mime type of an
existing data-URL (default `image/jpeg`), and return the bare base64 part.
A data-URL without a comma raises `ValueError`, caught to return the
stripped value whole. -/
def split_reference_image (referenceImage : String) : String × String :=
  if referenceImage = "" then ("image/jpeg", "")
  else
    let ref := pyStrip referenceImage
    if pyStartswith ref "data:" then
      match ref.splitOn "," with
      | header :: rest@(_ :: _) =>
        let mimeRaw := (((header.splitOn ";").headD "").splitOn ":").getD 1 ""
        let mime := if mimeRaw = "" then "image/jpeg" else mimeRaw
        (mime, String.intercalate "," rest)
      | _ => ("image/jpeg", ref)
    else ("image/jpeg", ref)

/-- `GeminiImageService._prepare_reference_part`
(src/services/gemini_image.py:179-186). -/
def prepare_reference_part (referenceImage : String) : PyVal :=
  let mt := split_reference_image referenceImage
  .dict [("inline_data", .dict
    [("mime_type", .str mt.1), ("data", .str mt.2)])]

/-- State of the `for part in parts` scan
(src/services/gemini_image.py:117-130): last inline image data, last text,
last mime type seen. -/
structure ScanState where
  imageData : PyVal
  textResponse : PyVal
  imageMime : PyVal

/-- One step of the parts scan. `Except.error` models an exception that the
inner `except (KeyError, IndexError)` does not catch (e.g. `.get` on a
non-dict truthy `inlineData`), so it propagates to the blanket handler. -/
def scanPart (st : ScanState) (part : PyVal) : Except String ScanState :=
  match part with
  | .dict d =>
    if hasKey d "inlineData" || hasKey d "inline_data" then
      let inline := pyOr ((pyGet d "inlineData").getD .none)
        ((pyGet d "inline_data").getD .none)
      if pyTruthy inline then
        match inline with
        | .dict di =>
          .ok { st with
            imageData := (pyGet di "data").getD .none,
            imageMime := pyOr (pyOr ((pyGet di "mimeType").getD .none)
              ((pyGet di "mime_type").getD .none)) st.imageMime }
        | _ => .error "AttributeError: get"
      else .ok st
    else if hasKey d "text" then
      .ok { st with textResponse := (pyGet d "text").getD .none }
    else .ok st
  | _ => .error "TypeError: argument of type is not iterable"

/-- The whole parts scan. -/
def scanParts : List PyVal → ScanState → Except String ScanState
  | [], st => .ok st
  | p :: rest, st =>
    match scanPart st p with
    | .ok st' => scanParts rest st'
    | .error e => .error e

/-- `GeminiImageService.generate_image` (src/services/gemini_image.py:34-174).
The request body is built from the prompt plus an optional reference part;
`generationConfig` is added only for `gemini-3-pro` models. On a 200
response, inline image data is extracted from the first candidate's parts
(last inline part wins); `candidates`/`content`/`parts` of unexpected
non-dict/non-list shapes raise outside the inner `(KeyError, IndexError)`
handler and land in the blanket `except Exception`. -/
def generate_image (apiKey : Option String) (model : String) (prompt : String)
    (aspectRatio : String := "1:1") (imageSize : String := "1K")
    (referenceImage : Option String := Option.none)
    (net : NetOutcome) : AdapterRun :=
  if !keyTruthy apiKey then
    ([("success", .bool false), ("message", .str "Gemini API key not configured")], [])
  else
    let parts : List PyVal :=
      [.dict [("text", .str prompt)]] ++
        (match referenceImage with
         | some r => if r ≠ "" then [prepare_reference_part r] else []
         | Option.none => [])
    let baseBody : PyDict :=
      [("contents", .list [.dict [("parts", .list parts)]])]
    let requestBody : PyDict :=
      if pyInStr "gemini-3-pro" model then
        baseBody ++
          [("generationConfig", .dict
            [("responseModalities", .list [.str "TEXT", .str "IMAGE"]),
             ("imageConfig", .dict
               [("aspectRatio", .str aspectRatio),
                ("imageSize", .str imageSize)])])]
      else baseBody
    let failed : String → PyDict := fun e =>
      [("success", .bool false), ("message", .str s!"Gemini image generation failed: {e}")]
    match net with
    | .timeout =>
      ([("success", .bool false),
        ("message", .str "Request timeout. Try using a lower resolution (1K or 2K)")],
       [requestBody])
    | .raised e => (failed e, [requestBody])
    | .ok status text data =>
      if status = 200 then
        let candidates := (pyGet data "candidates").getD (.list [])
        if !pyTruthy candidates then
          ([("success", .bool false),
            ("message", .str "No candidates in response")], [requestBody])
        else
          match candidates with
          | .list (.dict c0 :: _) =>
            let content := (pyGet c0 "content").getD (.dict [])
            match content with
            | .dict cd =>
              let partsVal := (pyGet cd "parts").getD (.list [])
              match partsVal with
              | .list ps =>
                match scanParts ps ⟨.none, .none, .none⟩ with
                | .ok st =>
                  if pyTruthy st.imageData then
                    ([("success", .bool true), ("image_data", st.imageData),
                      ("text", st.textResponse),
                      ("message", .str s!"图片生成成功 ({aspectRatio}, {imageSize})"),
                      ("metadata", .dict
                        [("aspect_ratio", .str aspectRatio),
                         ("image_size", .str imageSize),
                         ("model", .str model),
                         ("mime_type", pyOr st.imageMime (.str "image/png"))])],
                     [requestBody])
                  else
                    ([("success", .bool false),
                      ("message", .str "No image data in response"),
                      ("raw_response", .dict data)], [requestBody])
                | .error e => (failed e, [requestBody])
              | _ => (failed "TypeError: parts is not iterable", [requestBody])
            | _ => (failed "AttributeError: get", [requestBody])
          | _ => (failed "TypeError: candidates not subscriptable", [requestBody])
      else
        ([("success", .bool false),
          ("message", .str s!"Gemini API error: {status} - {text}")], [requestBody])

end GeminiImageService

namespace DoubaoImageService

/-- The `Union[str, List[str]]` shape of Doubao's `reference_image`. -/
inductive RefImage where
  | one (s : String)
  | many (l : List String)

/-- Truthiness of the optional reference image argument. -/
def refTruthy : Option RefImage → Bool
  | Option.none => false
  | some (.one s) => s ≠ ""
  | some (.many l) => !l.isEmpty

/-- `DoubaoImageService._format_image_input`
(src/services/doubao_image.py:168-171): a list maps `_ensure_data_url` over
its truthy elements; a single string is normalized directly. -/
def format_image_input : RefImage → RefImage
  | .one s => .one (ensure_data_url s)
  | .many l => .many ((l.filter (· ≠ "")).map ensure_data_url)

/-- `"".join(image_data.split())`: Python `str.split()` splits on whitespace
runs, so the join removes every whitespace character. -/
def stripAllWs (s : String) : String :=
  String.mk (s.data.filter (fun c => !isSpc c))

/-- The payload-construction block of `DoubaoImageService.generate_image`
(src/services/doubao_image.py:38-57): base fields, the `size` override
when truthy (else the derived `_build_size` string), sequential-generation
options when `auto`, and the formatted reference image when one is supplied
and formats to something truthy. -/
def buildPayload (model prompt aspectRatio imageSize : String)
    (referenceImage : Option RefImage) (responseFormat sequentialMode : String)
    (maxImages : Int) (watermark : Bool) (sizeOverride : Option String) :
    PyDict :=
  let sizeVal : String :=
    match sizeOverride with
    | some s => if s ≠ "" then s else build_size aspectRatio imageSize
    | Option.none => build_size aspectRatio imageSize
  let basePayload : PyDict :=
    [("model", .str model), ("prompt", .str prompt),
     ("response_format", .str responseFormat),
     ("sequential_image_generation", .str sequentialMode),
     ("watermark", .bool watermark),
     ("size", .str sizeVal)]
  let withSeq : PyDict :=
    if sequentialMode = "auto" then
      pySet basePayload "sequential_image_generation_options"
        (.dict [("max_images", .int (max 1 (min 15 maxImages)))])
    else basePayload
  if refTruthy referenceImage then
    match referenceImage with
    | some r =>
      let formatted := format_image_input r
      match formatted with
      | .one s => if s ≠ "" then pySet withSeq "image" (.str s) else withSeq
      | .many l =>
        if l.isEmpty then withSeq
        else pySet withSeq "image" (.list (l.map PyVal.str))
    | Option.none => withSeq
  else withSeq

/-- `DoubaoImageService.generate_image` (src/services/doubao_image.py:20-136).
On 200, inline base64 data wins over a URL; base64 data has all whitespace
removed first. -/
def generate_image (apiKey : Option String) (model : String) (prompt : String)
    (aspectRatio : String := "1:1") (imageSize : String := "1K")
    (referenceImage : Option RefImage := Option.none)
    (responseFormat : String := "b64_json")
    (sequentialMode : String := "disabled") (maxImages : Int := 1)
    (watermark : Bool := false) (sizeOverride : Option String := Option.none)
    (net : NetOutcome) : AdapterRun :=
  if !keyTruthy apiKey then
    ([("success", .bool false), ("message", .str "Doubao API key not configured")], [])
  else
    let payload : PyDict :=
      buildPayload model prompt aspectRatio imageSize referenceImage
        responseFormat sequentialMode maxImages watermark sizeOverride
    let failed : String → PyDict := fun e =>
      [("success", .bool false), ("message", .str s!"Doubao image generation failed: {e}")]
    match net with
    | .timeout =>
      ([("success", .bool false),
        ("message", .str "Doubao request timed out. Try a smaller size.")], [payload])
    | .raised e => (failed e, [payload])
    | .ok status text data =>
      if status ≠ 200 then
        ([("success", .bool false),
          ("message", .str s!"Doubao API error: {status} - {text}")], [payload])
      else
        let images := (pyGet data "data").getD (.list [])
        if !pyTruthy images then
          ([("success", .bool false),
            ("message", .str "Doubao API returned no images"),
            ("raw_response", .dict data)], [payload])
        else
          match images with
          | .list (.dict first :: _) =>
            let imageDataRaw := (pyGet first "b64_json").getD .none
            let imageData :=
              match imageDataRaw with
              | .str s => if s ≠ "" then PyVal.str (stripAllWs s) else .str s
              | v => v
            let imageUrl := (pyGet first "url").getD .none
            let mimeType := pyOr ((pyGet first "mime_type").getD .none)
              (.str "image/jpeg")
            let metadata : PyVal := .dict
              [("aspect_ratio", .str aspectRatio),
               ("image_size", .str imageSize),
               ("model", .str model),
               ("service", .str "doubao-image"),
               ("mime_type", mimeType)]
            if pyTruthy imageData then
              ([("success", .bool true), ("image_data", imageData),
                ("message", .str "豆包图片生成成功"),
                ("metadata", metadata)], [payload])
            else if pyTruthy imageUrl then
              ([("success", .bool true), ("image_url", imageUrl),
                ("message", .str "豆包图片生成成功（URL）"),
                ("metadata", metadata)], [payload])
            else
              ([("success", .bool false),
                ("message", .str "Unknown response format"),
                ("raw_response", .dict data)], [payload])
          | _ => (failed "TypeError: images[0]", [payload])

end DoubaoImageService

namespace VideoAnalysisService

/-- The fixed 100 MB ceiling (src/services/video_analysis.py:90). -/
def maxSize : Nat := 100 * 1024 * 1024

/-- The text-concatenation scan over the first candidate's parts
(src/services/video_analysis.py:170-174): `text_response += part["text"]`
for every part containing a `"text"` key. `Except.error` models an exception
(non-dict part, non-string text) that escapes to the blanket handler. -/
def collectText : List PyVal → String → Except String String
  | [], acc => .ok acc
  | p :: rest, acc =>
    match p with
    | .dict d =>
      match pyGet d "text" with
      | some (.str t) => collectText rest (acc ++ t)
      | some _ => .error "TypeError: can only concatenate str"
      | Option.none => collectText rest acc
    | _ => .error "TypeError: argument of type is not iterable"

/-- `VideoAnalysisService.analyze_video` (src/services/video_analysis.py:55-207).
The effective key is `api_key or self.api_key`. The filesystem is made
explicit: `fileExists`/`fileSize` are what `Path(...).exists()`/`.stat()`
observe, `encoded` is the base64 encoding the file read yields, and
`encodeOk = false` models a read failure (re-raised, caught by the blanket
handler). All precondition failures short-circuit with an empty sent-list. -/
def analyze_video (selfKey : Option String) (model : String)
    (videoPath : String) (prompt : String)
    (callKey : Option String := Option.none)
    (fileExists : Bool := true) (fileSize : Nat := 0)
    (encodeOk : Bool := true) (encoded : String := "")
    (net : NetOutcome) : AdapterRun :=
  let effKey : Option String :=
    match callKey with
    | some s => if s ≠ "" then some s else selfKey
    | Option.none => selfKey
  if !keyTruthy effKey then
    ([("success", .bool false), ("message", .str "API密钥未配置")], [])
  else if !fileExists then
    ([("success", .bool false),
      ("message", .str s!"视频文件不存在: {videoPath}")], [])
  else if fileSize > maxSize then
    ([("success", .bool false),
      ("message", .str "视频文件过大")], [])
  else if !encodeOk then
    ([("success", .bool false),
      ("message", .str "视频分析失败: 视频文件读取失败")], [])
  else
    let payload : PyDict :=
      [("contents", .list
        [.dict [("role", .str "user"),
          ("parts", .list
            [.dict [("inline_data", .dict
              [("mime_type", .str "video/mp4"), ("data", .str encoded)])],
             .dict [("text", .str prompt)]])]])]
    match net with
    | .timeout =>
      ([("success", .bool false),
        ("message", .str "请求超时（180秒）。视频文件可能太大或网络较慢，建议使用更小的视频（<50MB）")],
       [payload])
    | .raised e =>
      ([("success", .bool false),
        ("message", .str s!"网络请求失败: {e}")], [payload])
    | .ok status _text data =>
      if status = 200 then
        let candidates := (pyGet data "candidates").getD (.list [])
        if pyTruthy candidates then
          match candidates with
          | .list (.dict c0 :: _) =>
            let content := (pyGet c0 "content").getD (.dict [])
            match content with
            | .dict cd =>
              let partsVal := (pyGet cd "parts").getD (.list [])
              match partsVal with
              | .list ps =>
                match collectText ps "" with
                | .ok textResponse =>
                  ([("success", .bool true), ("message", .str "视频分析完成"),
                    ("analysis", .str textResponse),
                    ("raw_response", .dict data),
                    ("metadata", .dict
                      [("model", .str model), ("prompt", .str prompt),
                       ("video_path", .str videoPath),
                       ("video_size", .int (fileSize : Int))])], [payload])
                | .error e =>
                  ([("success", .bool false),
                    ("message", .str s!"视频分析失败: {e}")], [payload])
              | _ =>
                ([("success", .bool false),
                  ("message", .str "视频分析失败: TypeError")], [payload])
            | _ =>
              ([("success", .bool false),
                ("message", .str "视频分析失败: AttributeError")], [payload])
          | _ =>
            ([("success", .bool false),
              ("message", .str "视频分析失败: TypeError")], [payload])
        else
          ([("success", .bool false), ("message", .str "未找到分析结果"),
            ("raw_response", .dict data)], [payload])
      else
        let errorMsg :=
          match pyGet data "error" with
          | some (.dict ed) =>
            match pyGet ed "message" with
            | some (.str m) => m
            | some v => pyStr v
            | Option.none => "未知错误"
          | _ => "未知错误"
        ([("success", .bool false),
          ("message", .str s!"API错误: {errorMsg}"),
          ("raw_response", .dict data)], [payload])

end VideoAnalysisService

namespace VideoRouter

/-- The allow-list of VEO models that accept reference images
(src/routers/video.py:88). -/
def image_supported_models : List String :=
  ["veo3-fast-frames", "veo2-fast-frames", "veo2-fast-components"]

/-- The image-gating block of `generate_veo_video`
(src/routers/video.py:91-124): resolve the supplied images (new `images`
array wins over the legacy single `image_data`), drop them all when the
model is not allow-listed, and otherwise truncate to the model's maximum
(1 for veo3-fast-frames, 2 for veo2-fast-frames, 3 for veo2-fast-components).
Returns the `images` argument forwarded to `veo_service.create_video`. -/
def routeVeoImages (reqImages : Option (List String))
    (imageData : Option String) (model : String) : Option (List String) :=
  let supplied : Option (List String) :=
    match reqImages with
    | some l => if !l.isEmpty then some l else
        (match imageData with
         | some d => if d ≠ "" then some [d] else Option.none
         | Option.none => Option.none)
    | Option.none =>
        match imageData with
        | some d => if d ≠ "" then some [d] else Option.none
        | Option.none => Option.none
  match supplied with
  | Option.none => Option.none
  | some imgs =>
    if model ∉ image_supported_models then Option.none
    else if model = "veo3-fast-frames" then some (imgs.take 1)
    else if model = "veo2-fast-frames" then some (imgs.take 2)
    else if model = "veo2-fast-components" then some (imgs.take 3)
    else some imgs

end VideoRouter

namespace HistoryManager

/-- One row of the `history` table (src/history.py:22-31): `created_at` is
`CURRENT_TIMESTAMP`, which SQLite materializes at one-second resolution, so
it is modelled as a number of seconds. -/
structure HRow where
  id : Nat
  rowType : String
  prompt : String
  response : String
  metadata : String
  created_at : Nat
deriving DecidableEq

/-- The persistent store: rows in insertion (rowid) order, plus the next
AUTOINCREMENT id. -/
structure HDB where
  rows : List HRow
  nextId : Nat
deriving DecidableEq

/-- `HistoryManager.add_history` (src/history.py:36-51): insert a new row
with an auto-assigned id and the current timestamp `now`; returns the store
and `cursor.lastrowid`. `metadataJson` is the already-serialized metadata
(`json.dumps(metadata) if metadata else "{}"`). -/
def add_history (db : HDB) (rowType prompt response metadataJson : String)
    (now : Nat) : HDB × Nat :=
  let row : HRow :=
    { id := db.nextId, rowType := rowType, prompt := prompt,
      response := response, metadata := metadataJson, created_at := now }
  ({ rows := db.rows ++ [row], nextId := db.nextId + 1 }, db.nextId)

/-- One insertion step of the sort backing `ORDER BY created_at DESC`:
a row is placed after every already-placed row whose `created_at` is at
least as large, which makes the overall sort stable — rows with equal
`created_at` stay in scan (rowid) order, matching SQLite's table-scan-feed
into its sorter. SQLite itself leaves the tie order unspecified; the
embedding fixes the stable behavior actually observed. -/
def insertDesc (r : HRow) : List HRow → List HRow
  | [] => [r]
  | x :: xs =>
    if r.created_at ≤ x.created_at then x :: insertDesc r xs
    else r :: x :: xs

/-- The full sort `ORDER BY created_at DESC` over the table scan. -/
def sortDesc (rows : List HRow) : List HRow :=
  rows.foldl (fun acc r => insertDesc r acc) []

/-- `HistoryManager.get_history` (src/history.py:53-78):
`SELECT * FROM history ORDER BY created_at DESC LIMIT ? OFFSET ?`. -/
def get_history (db : HDB) (limit : Nat := 50) (offset : Nat := 0) :
    List HRow :=
  ((sortDesc db.rows).drop offset).take limit

/-- `HistoryManager.clear_history` (src/history.py:80-86): `DELETE FROM
history` removes every row (AUTOINCREMENT ids are not reused). -/
def clear_history (db : HDB) : HDB :=
  { rows := [], nextId := db.nextId }

/-- The complete method set of `HistoryManager` as defined in
src/history.py — note there is no `delete_history`. -/
def methods : List String :=
  ["__init__", "init_db", "add_history", "get_history", "clear_history"]

end HistoryManager

/-- What a FastAPI route handler surfaces for one request: a JSON body, or
an `HTTPException` with a status code. -/
inductive ApiReply where
  | ok (body : PyDict)
  | httpError (status : Nat) (detail : String)

namespace HistoryRouter

/-- What `HistoryManager.delete_history` would do if it existed — modelled
from the spec (`delete(id) -> boolean`: true if a record existed and was
removed; false if absent, leaving the store unchanged). It is referenced
here only behind the method-existence check, because src/history.py defines
no such method. -/
def specDeleteHistory (db : HistoryManager.HDB) (itemId : Nat) :
    HistoryManager.HDB × Bool :=
  if db.rows.any (fun r => r.id = itemId) then
    ({ rows := db.rows.filter (fun r => r.id ≠ itemId), nextId := db.nextId },
     true)
  else (db, false)

/-- `delete_history_item` (src/routers/history.py:30-49): the handler calls
`history_manager.delete_history(item_id)` inside `try`. Since
`HistoryManager` defines no `delete_history` attribute, Python raises
`AttributeError`, which falls into `except Exception` and is re-surfaced as
`HTTPException(500, str(e))`; the success/404 branches are unreachable. -/
def delete_history_item (db : HistoryManager.HDB) (itemId : Nat) :
    HistoryManager.HDB × ApiReply :=
  if "delete_history" ∈ HistoryManager.methods then
    let r := specDeleteHistory db itemId
    if r.2 then
      (r.1, .ok [("success", .bool true), ("message", .str "History item deleted")])
    else
      (db, .httpError 404 "History item not found")
  else
    (db, .httpError 500 "HistoryManager object has no attribute delete_history")

end HistoryRouter

/-- Whether `_parse_ratio`'s `try` body succeeds on `ratio`: the split has a
second part and both parts parse as Python ints. `false` is exactly the
malformed case in which the `except` clause returns `(1, 1)`. -/
def ratioWellFormed (ratio : String) : Bool :=
  match ratio.splitOn ":" with
  | p0 :: p1 :: _ => (pyInt p0).isSome && (pyInt p1).isSome
  | _ => false

namespace HistoryManager

/-- A fresh store: empty table, AUTOINCREMENT starts at 1. -/
def emptyDB : HDB := { rows := [], nextId := 1 }

/-- Two records appended within the same second (equal `CURRENT_TIMESTAMP`),
as produced by two immediate `add_history` calls. -/
def dbTie : HDB :=
  (add_history (add_history emptyDB "image" "p1" "r1" "\x7b\x7d" 100).1
    "image" "p2" "r2" "\x7b\x7d" 100).1

/-- Two records appended in different seconds (strictly increasing
`created_at`). -/
def dbInc : HDB :=
  (add_history (add_history emptyDB "image" "p1" "r1" "\x7b\x7d" 100).1
    "image" "p2" "r2" "\x7b\x7d" 200).1

end HistoryManager

/-! ## Theorems -/

/-- C1: the spec says `HistoryStore.delete(id)` returns a boolean (false on a
missing id, not an error), and the router maps false to a 404; but
`HistoryManager` (src/history.py) defines no `delete_history` method at all,
so the router's call raises `AttributeError` and every delete request —
existing id or not — is surfaced as HTTP 500, with the store untouched. -/
theorem delete_history_item_always_500 (db : HistoryManager.HDB) (itemId : Nat) :
    HistoryRouter.delete_history_item db itemId =
      (db, ApiReply.httpError 500
        "HistoryManager object has no attribute delete_history") := by
  have h : ("delete_history" ∈ HistoryManager.methods) = False := by
    simp [HistoryManager.methods]
  simp [HistoryRouter.delete_history_item, h]

/-- C6: with no configured credential (`api_key=None`), every adapter
operation returns its fixed `success=false` dict and hands nothing to the
HTTP transport (empty sent-list, result independent of the transport
outcome). -/
theorem adapters_fail_fast_without_credential :
    (∀ prompt size quality n net,
      DalleService.generate_image Option.none prompt size quality n net =
        ([("success", .bool false),
          ("error", .str "DALL-E API key not configured")], []))
  ∧ (∀ prompt w h steps net,
      StableDiffusionService.generate_image Option.none prompt w h steps net =
        ([("success", .bool false),
          ("error", .str "Stability AI API key not configured")], []))
  ∧ (∀ model prompt ar sz ref net,
      GeminiImageService.generate_image Option.none model prompt ar sz ref net =
        ([("success", .bool false),
          ("message", .str "Gemini API key not configured")], []))
  ∧ (∀ model prompt ar sz ref rf sm mi wm so net,
      DoubaoImageService.generate_image Option.none model prompt ar sz ref rf sm mi wm so net =
        ([("success", .bool false),
          ("message", .str "Doubao API key not configured")], []))
  ∧ (∀ selfModel msgs m net,
      ChatService.chat_completion Option.none selfModel msgs m net =
        ([("success", .bool false),
          ("message", .str "API key not configured")], []))
  ∧ (∀ selfModel t tp mct msgs m net,
      MimoChatService.chat_completion Option.none selfModel t tp mct msgs m net =
        ([("success", .bool false),
          ("message", .str "MiMO API key not configured")], []))
  ∧ (∀ selfModel prompt o d wm pv imgs net,
      SoraVideoService.create_video Option.none selfModel prompt o d wm pv imgs net =
        ([("success", .bool false),
          ("message", .str "Sora API key not configured")], []))
  ∧ (∀ taskId net,
      SoraVideoService.query_video Option.none taskId net =
        ([("success", .bool false),
          ("message", .str "Sora API key not configured")], []))
  ∧ (∀ selfModel prompt m ar ep eu imgs net,
      VeoVideoService.create_video Option.none selfModel prompt m ar ep eu imgs net =
        ([("success", .bool false),
          ("message", .str "VEO API key not configured")], []))
  ∧ (∀ taskId net,
      VeoVideoService.query_video Option.none taskId net =
        ([("success", .bool false),
          ("message", .str "VEO API key not configured")], []))
  ∧ (∀ model path prompt fe fs eo enc net,
      VideoAnalysisService.analyze_video Option.none model path prompt
          Option.none fe fs eo enc net =
        ([("success", .bool false), ("message", .str "API密钥未配置")], [])) := by
  refine ⟨?_, ?_, ?_, ?_, ?_, ?_, ?_, ?_, ?_, ?_, ?_⟩ <;> intros <;> rfl

/-- C10: an empty-string credential is indistinguishable from an absent one:
because each adapter's guard tests truthiness (`if not self.api_key`),
`api_key=""` produces exactly the same run — the same `success=false`
result dict and zero transport invocations — as `api_key=None`. For the
video-analysis adapter the per-call `api_key` override behaves the same
way: an empty override falls back to the constructor key just as `None`
does. -/
theorem adapters_empty_key_equals_absent_key :
    (∀ prompt size quality n net,
      DalleService.generate_image (some "") prompt size quality n net =
        DalleService.generate_image Option.none prompt size quality n net ∧
      pyGet (DalleService.generate_image (some "") prompt size quality n net).1
          "success" = some (.bool false) ∧
      (DalleService.generate_image (some "") prompt size quality n net).2 = [])
  ∧ (∀ prompt w h steps net,
      StableDiffusionService.generate_image (some "") prompt w h steps net =
        StableDiffusionService.generate_image Option.none prompt w h steps net ∧
      pyGet (StableDiffusionService.generate_image (some "") prompt w h steps net).1
          "success" = some (.bool false) ∧
      (StableDiffusionService.generate_image (some "") prompt w h steps net).2 = [])
  ∧ (∀ model prompt ar sz ref net,
      GeminiImageService.generate_image (some "") model prompt ar sz ref net =
        GeminiImageService.generate_image Option.none model prompt ar sz ref net ∧
      pyGet (GeminiImageService.generate_image (some "") model prompt ar sz ref net).1
          "success" = some (.bool false) ∧
      (GeminiImageService.generate_image (some "") model prompt ar sz ref net).2 = [])
  ∧ (∀ model prompt ar sz ref rf sm mi wm so net,
      DoubaoImageService.generate_image (some "") model prompt ar sz ref rf sm mi wm so net =
        DoubaoImageService.generate_image Option.none model prompt ar sz ref rf sm mi wm so net ∧
      pyGet (DoubaoImageService.generate_image (some "") model prompt ar sz ref rf sm mi wm so net).1
          "success" = some (.bool false) ∧
      (DoubaoImageService.generate_image (some "") model prompt ar sz ref rf sm mi wm so net).2 = [])
  ∧ (∀ selfModel msgs m net,
      ChatService.chat_completion (some "") selfModel msgs m net =
        ChatService.chat_completion Option.none selfModel msgs m net ∧
      pyGet (ChatService.chat_completion (some "") selfModel msgs m net).1
          "success" = some (.bool false) ∧
      (ChatService.chat_completion (some "") selfModel msgs m net).2 = [])
  ∧ (∀ selfModel t tp mct msgs m net,
      MimoChatService.chat_completion (some "") selfModel t tp mct msgs m net =
        MimoChatService.chat_completion Option.none selfModel t tp mct msgs m net ∧
      pyGet (MimoChatService.chat_completion (some "") selfModel t tp mct msgs m net).1
          "success" = some (.bool false) ∧
      (MimoChatService.chat_completion (some "") selfModel t tp mct msgs m net).2 = [])
  ∧ (∀ selfModel prompt o d wm pv imgs net,
      SoraVideoService.create_video (some "") selfModel prompt o d wm pv imgs net =
        SoraVideoService.create_video Option.none selfModel prompt o d wm pv imgs net ∧
      pyGet (SoraVideoService.create_video (some "") selfModel prompt o d wm pv imgs net).1
          "success" = some (.bool false) ∧
      (SoraVideoService.create_video (some "") selfModel prompt o d wm pv imgs net).2 = [])
  ∧ (∀ taskId net,
      SoraVideoService.query_video (some "") taskId net =
        SoraVideoService.query_video Option.none taskId net ∧
      pyGet (SoraVideoService.query_video (some "") taskId net).1
          "success" = some (.bool false) ∧
      (SoraVideoService.query_video (some "") taskId net).2 = [])
  ∧ (∀ selfModel prompt m ar ep eu imgs net,
      VeoVideoService.create_video (some "") selfModel prompt m ar ep eu imgs net =
        VeoVideoService.create_video Option.none selfModel prompt m ar ep eu imgs net ∧
      pyGet (VeoVideoService.create_video (some "") selfModel prompt m ar ep eu imgs net).1
          "success" = some (.bool false) ∧
      (VeoVideoService.create_video (some "") selfModel prompt m ar ep eu imgs net).2 = [])
  ∧ (∀ taskId net,
      VeoVideoService.query_video (some "") taskId net =
        VeoVideoService.query_video Option.none taskId net ∧
      pyGet (VeoVideoService.query_video (some "") taskId net).1
          "success" = some (.bool false) ∧
      (VeoVideoService.query_video (some "") taskId net).2 = [])
  ∧ (∀ model path prompt fe fs eo enc net,
      VideoAnalysisService.analyze_video (some "") model path prompt
          Option.none fe fs eo enc net =
        VideoAnalysisService.analyze_video Option.none model path prompt
          Option.none fe fs eo enc net ∧
      pyGet (VideoAnalysisService.analyze_video (some "") model path prompt
          Option.none fe fs eo enc net).1 "success" = some (.bool false) ∧
      (VideoAnalysisService.analyze_video (some "") model path prompt
          Option.none fe fs eo enc net).2 = [])
  ∧ (∀ selfKey model path prompt fe fs eo enc net,
      VideoAnalysisService.analyze_video selfKey model path prompt
          (some "") fe fs eo enc net =
        VideoAnalysisService.analyze_video selfKey model path prompt
          Option.none fe fs eo enc net) := by
  refine ⟨?_, ?_, ?_, ?_, ?_, ?_, ?_, ?_, ?_, ?_, ?_, ?_⟩ <;> intros <;>
    first
      | exact ⟨rfl, rfl, rfl⟩
      | rfl

/-- C7: reference-image gating in the VEO route (src/routers/video.py:86-134):
a supplied image list is truncated to the allow-listed model's maximum
(veo3-fast-frames 1, veo2-fast-frames 2, veo2-fast-components 3) before
being forwarded to `veo_service.create_video`, and a model outside the
allow-list forwards no images at all — whether they came as an `images`
array or as the legacy single `image_data`. -/
theorem routeVeoImages_gating :
    (∀ (imgs : List String) (d : Option String), imgs ≠ [] →
      VideoRouter.routeVeoImages (some imgs) d "veo3-fast-frames" =
          some (imgs.take 1) ∧
      VideoRouter.routeVeoImages (some imgs) d "veo2-fast-frames" =
          some (imgs.take 2) ∧
      VideoRouter.routeVeoImages (some imgs) d "veo2-fast-components" =
          some (imgs.take 3))
  ∧ (∀ (imgs : List String) (d : Option String) (model : String),
      model ∉ VideoRouter.image_supported_models →
      VideoRouter.routeVeoImages (some imgs) d model = Option.none)
  ∧ (∀ (s model : String),
      model ∉ VideoRouter.image_supported_models →
      VideoRouter.routeVeoImages Option.none (some s) model = Option.none) := by
  refine ⟨?_, ?_, ?_⟩
  · intro imgs d h
    have he : imgs.isEmpty = false := by
      cases imgs with
      | nil => simp at h
      | cons a t => rfl
    refine ⟨?_, ?_, ?_⟩ <;>
      simp [VideoRouter.routeVeoImages, VideoRouter.image_supported_models, he]
  · intro imgs d model hm
    by_cases he : imgs.isEmpty
    · cases d with
      | none => simp [VideoRouter.routeVeoImages, he]
      | some s =>
        by_cases hs : s = "" <;>
          simp [VideoRouter.routeVeoImages, he, hs, hm]
    · simp only [Bool.not_eq_true] at he
      simp [VideoRouter.routeVeoImages, he, hm]
  · intro s model hm
    by_cases hs : s = "" <;>
      simp [VideoRouter.routeVeoImages, hs, hm]

/-- C8: `create_video` never rejects out-of-range enum options: with a
configured key the request is always dispatched (exactly one payload sent),
and the sent payload carries the silently coerced values — Sora's
`orientation` falls back to `landscape` and `duration` to `15`
(src/services/sora_video.py:50-54), VEO's `aspect_ratio` falls back to
`16:9` (src/services/veo_video.py:58-60). -/
theorem create_video_coerces_enum_options
    (key selfModel prompt : String) (hkey : key ≠ "") :
    (∀ orientation duration watermark pv imgs net,
      ((SoraVideoService.create_video (some key) selfModel prompt
          orientation duration watermark pv imgs net).2).map
          (fun p => (pyGet p "orientation", pyGet p "duration")) =
        [(some (.str (if orientation = "portrait" ∨ orientation = "landscape"
              then orientation else "landscape")),
          some (.int (if duration = 15 ∨ duration = 25 then duration else 15)))])
  ∧ (∀ m aspectRatio ep eu imgs net,
      ((VeoVideoService.create_video (some key) selfModel prompt
          m aspectRatio ep eu imgs net).2).map
          (fun q => pyGet q "aspect_ratio") =
        [some (.str (if aspectRatio = "16:9" ∨ aspectRatio = "9:16"
              then aspectRatio else "16:9"))]) := by
  constructor
  · intro orientation duration watermark pv imgs net
    cases net <;> simp [pyGet, hkey, SoraVideoService.create_video, keyTruthy] <;>
      split_ifs <;> simp [pyGet]
  · intro m aspectRatio ep eu imgs net
    cases net <;>
      · rcases imgs with _ | l
        · simp [pyGet, hkey, VeoVideoService.create_video, keyTruthy] <;>
            split_ifs <;> simp [pyGet]
        · by_cases hl : l.isEmpty <;>
            simp [pyGet, pySet, hkey, VeoVideoService.create_video, keyTruthy, hl] <;>
              split_ifs <;> simp [pyGet, pySet]

/-- C8 witness: the spec's own scenario — an invalid `orientation="sideways"`
and `duration=99` are coerced to `landscape`/`15`, and an invalid VEO
`aspect_ratio="1:1"` is coerced to `16:9`; the requests are still sent. -/
theorem create_video_coerces_enum_options_witness :
    ((SoraVideoService.create_video (some "k") "sora-2" "a red cat"
        "sideways" 99 false true Option.none NetOutcome.timeout).2).map
        (fun p => (pyGet p "orientation", pyGet p "duration")) =
      [(some (.str "landscape"), some (.int 15))] ∧
    ((VeoVideoService.create_video (some "k") "veo3-fast" "a red cat"
        Option.none "1:1" true true Option.none NetOutcome.timeout).2).map
        (fun q => pyGet q "aspect_ratio") =
      [some (.str "16:9")] := by
  have h := create_video_coerces_enum_options "k" "sora-2" "a red cat" (by decide)
  have h2 := create_video_coerces_enum_options "k" "veo3-fast" "a red cat" (by decide)
  constructor
  · have := h.1 "sideways" 99 false true Option.none NetOutcome.timeout
    simpa using this
  · have := h2.2 Option.none "1:1" true true Option.none NetOutcome.timeout
    simpa using this

/-- C5: for both video providers, a query whose 200 body carries
`status="failed"` yields `success=false` in the canonical result even though
the HTTP status was 200 (src/services/sora_video.py:174-176,
src/services/veo_video.py:181-183). -/
theorem query_video_failed_forces_failure
    (key taskId text : String) (data : PyDict) (hkey : key ≠ "")
    (hst : pyGet data "status" = some (.str "failed")) :
    pyGet (SoraVideoService.query_video (some key) taskId
        (.ok 200 text data)).1 "success" = some (.bool false) ∧
    pyGet (VeoVideoService.query_video (some key) taskId
        (.ok 200 text data)).1 "success" = some (.bool false) := by
  constructor <;>
    simp [SoraVideoService.query_video, VeoVideoService.query_video,
      queryVideo200, keyTruthy, hkey, hst, pyEqStr, pySet, pyGet]

/-- C5 witness: a concrete 200 response with `status="failed"`. -/
theorem query_video_failed_forces_failure_witness :
    pyGet (SoraVideoService.query_video (some "k") "t1"
        (.ok 200 "" [("status", .str "failed")])).1 "success" =
      some (.bool false) ∧
    pyGet (VeoVideoService.query_video (some "k") "t1"
        (.ok 200 "" [("status", .str "failed")])).1 "success" =
      some (.bool false) :=
  query_video_failed_forces_failure "k" "t1" "" [("status", .str "failed")]
    (by decide) (by simp [pyGet])

/-- Half-to-even rounding never exceeds an integer upper bound of its
argument. -/
theorem pyRound_le (q : ℚ) (n : ℤ) (h : q ≤ (n : ℚ)) : pyRound q ≤ n := by
  have hf : ⌊q⌋ ≤ n := by
    have h2 := Int.floor_le_floor h
    simpa using h2
  have hsucc : (1 : ℚ)/2 ≤ q - (⌊q⌋ : ℚ) → ⌊q⌋ + 1 ≤ n := by
    intro hge
    rcases lt_or_eq_of_le hf with hlt | heq
    · omega
    · exfalso
      rw [← heq] at h
      linarith
  simp only [pyRound]
  split_ifs with h1 h2 h3
  · exact hf
  · exact hsucc (le_of_not_lt h1)
  · exact hf
  · exact hsucc (le_of_not_lt h1)

/-- Both components of `_parse_ratio`'s result are at least 1. -/
theorem parse_ratio_ge_one (s : String) :
    1 ≤ (DoubaoImageService.parse_ratio s).1 ∧
    1 ≤ (DoubaoImageService.parse_ratio s).2 := by
  unfold DoubaoImageService.parse_ratio
  rcases h : s.splitOn ":" with _ | ⟨p0, rest⟩
  · simp
  · rcases rest with _ | ⟨p1, rest2⟩
    · simp
    · rcases h0 : pyInt p0 with _ | a <;> rcases h1 : pyInt p1 with _ | b <;>
        simp [h0, h1, le_max_left]

/-- `sizeBase` only takes the three base dimensions. -/
theorem sizeBase_mem (sc : String) :
    DoubaoImageService.sizeBase sc = 1024 ∨
    DoubaoImageService.sizeBase sc = 2048 ∨
    DoubaoImageService.sizeBase sc = 4096 := by
  simp only [DoubaoImageService.sizeBase]
  split_ifs <;> simp

/-- C4: the `(aspect_ratio, size_class)` → pixel-size derivation of
`DoubaoImageService._build_size`: the size class maps (case-insensitively,
default 1K) to a base dimension, the larger side equals that base dimension,
the smaller side is the rounded scaled value, and after clamping both sides
always land in [512, 4096]; and `_parse_ratio` falls back to `(1, 1)` on any
malformed `W:H` string instead of raising. -/
theorem build_size_bounds (ar sc : String) :
    (512 ≤ (DoubaoImageService.build_size_wh ar sc).1 ∧
     (DoubaoImageService.build_size_wh ar sc).1 ≤ 4096 ∧
     512 ≤ (DoubaoImageService.build_size_wh ar sc).2 ∧
     (DoubaoImageService.build_size_wh ar sc).2 ≤ 4096 ∧
     max (DoubaoImageService.build_size_wh ar sc).1
         (DoubaoImageService.build_size_wh ar sc).2 =
       DoubaoImageService.sizeBase sc) ∧
    (ratioWellFormed ar = false →
      DoubaoImageService.parse_ratio ar = (1, 1)) := by
  constructor
  · have hw := (parse_ratio_ge_one ar).1
    have hh := (parse_ratio_ge_one ar).2
    have hbase : 512 ≤ DoubaoImageService.sizeBase sc ∧
        DoubaoImageService.sizeBase sc ≤ 4096 := by
      rcases sizeBase_mem sc with h | h | h <;> rw [h] <;> norm_num
    set base := DoubaoImageService.sizeBase sc with hbdef
    set wr := (DoubaoImageService.parse_ratio ar).1 with hwdef
    set hr := (DoubaoImageService.parse_ratio ar).2 with hhdef
    have hb0 : (0 : ℤ) < base := by linarith [hbase.1]
    simp only [DoubaoImageService.build_size_wh, ← hbdef, ← hwdef, ← hhdef]
    by_cases hcmp : wr ≥ hr
    · have hqle : ((base * hr : ℤ) : ℚ) / (max (wr : ℚ) 1) ≤ (base : ℚ) := by
        have hmax : max (wr : ℚ) 1 = (wr : ℚ) := by
          apply max_eq_left
          exact_mod_cast hw
        rw [hmax, div_le_iff₀ (by exact_mod_cast lt_of_lt_of_le one_pos hw)]
        push_cast
        have : (base : ℚ) * hr ≤ (base : ℚ) * wr := by
          apply mul_le_mul_of_nonneg_left
          · exact_mod_cast hcmp
          · positivity
        linarith
      have hround : pyRound (((base * hr : ℤ) : ℚ) / (max (wr : ℚ) 1)) ≤ base :=
        pyRound_le _ _ hqle
      have hh0le : max 512 (pyRound (((base * hr : ℤ) : ℚ) / (max (wr : ℚ) 1))) ≤ base :=
        max_le hbase.1 hround
      simp only [if_pos hcmp]
      have hwfin : max 512 (min 4096 base) = base := by
        rw [min_eq_right hbase.2, max_eq_right hbase.1]
      have hhfin : max 512 (min 4096 (max 512 (pyRound (((base * hr : ℤ) : ℚ) / (max (wr : ℚ) 1))))) ≤ base := by
        apply max_le hbase.1
        exact le_trans (min_le_right _ _) hh0le
      refine ⟨?_, ?_, ?_, ?_, ?_⟩
      · rw [hwfin]; exact hbase.1
      · rw [hwfin]; exact hbase.2
      · exact le_max_left _ _
      · exact max_le (by norm_num) (min_le_left _ _)
      · rw [hwfin]
        exact max_eq_left hhfin
    · have hcmp2 : wr ≤ hr := le_of_not_le hcmp
      have hqle : ((base * wr : ℤ) : ℚ) / (max (hr : ℚ) 1) ≤ (base : ℚ) := by
        have hmax : max (hr : ℚ) 1 = (hr : ℚ) := by
          apply max_eq_left
          exact_mod_cast hh
        rw [hmax, div_le_iff₀ (by exact_mod_cast lt_of_lt_of_le one_pos hh)]
        push_cast
        have : (base : ℚ) * wr ≤ (base : ℚ) * hr := by
          apply mul_le_mul_of_nonneg_left
          · exact_mod_cast hcmp2
          · positivity
        linarith
      have hround : pyRound (((base * wr : ℤ) : ℚ) / (max (hr : ℚ) 1)) ≤ base :=
        pyRound_le _ _ hqle
      have hw0le : max 512 (pyRound (((base * wr : ℤ) : ℚ) / (max (hr : ℚ) 1))) ≤ base :=
        max_le hbase.1 hround
      simp only [if_neg hcmp]
      have hhfin : max 512 (min 4096 base) = base := by
        rw [min_eq_right hbase.2, max_eq_right hbase.1]
      have hwfin : max 512 (min 4096 (max 512 (pyRound (((base * wr : ℤ) : ℚ) / (max (hr : ℚ) 1))))) ≤ base := by
        apply max_le hbase.1
        exact le_trans (min_le_right _ _) hw0le
      refine ⟨?_, ?_, ?_, ?_, ?_⟩
      · exact le_max_left _ _
      · exact max_le (by norm_num) (min_le_left _ _)
      · rw [hhfin]; exact hbase.1
      · rw [hhfin]; exact hbase.2
      · rw [hhfin]
        exact max_eq_right hwfin
  · intro h
    unfold ratioWellFormed at h
    unfold DoubaoImageService.parse_ratio
    rcases hs : ar.splitOn ":" with _ | ⟨p0, rest⟩
    · simp
    · rcases rest with _ | ⟨p1, rest2⟩
      · simp
      · rw [hs] at h
        rcases h0 : pyInt p0 with _ | a <;> rcases h1 : pyInt p1 with _ | b <;>
          simp [h0, h1] at h ⊢

/-- Membership through one sorted insertion. -/
theorem insertDesc_mem (r : HistoryManager.HRow) (l : List HistoryManager.HRow)
    (y : HistoryManager.HRow) :
    y ∈ HistoryManager.insertDesc r l ↔ y = r ∨ y ∈ l := by
  induction l with
  | nil => simp [HistoryManager.insertDesc]
  | cons x xs ih =>
    simp only [HistoryManager.insertDesc]
    split_ifs with h <;> simp only [List.mem_cons, ih] <;> tauto

/-- The sorted-insertion step keeps the scan order sorted by
`created_at` descending with ties in id-ascending order, provided every
already-placed row has a smaller id (true for a table scan in rowid
order). -/
theorem insertDesc_pairwise (r : HistoryManager.HRow)
    (l : List HistoryManager.HRow)
    (hl : l.Pairwise (fun a b => b.created_at < a.created_at ∨
      (a.created_at = b.created_at ∧ a.id < b.id)))
    (hid : ∀ x ∈ l, x.id < r.id) :
    (HistoryManager.insertDesc r l).Pairwise
      (fun a b => b.created_at < a.created_at ∨
        (a.created_at = b.created_at ∧ a.id < b.id)) := by
  induction l with
  | nil => simp [HistoryManager.insertDesc]
  | cons x xs ih =>
    rw [List.pairwise_cons] at hl
    simp only [HistoryManager.insertDesc]
    split_ifs with h
    · rw [List.pairwise_cons]
      refine ⟨?_, ih hl.2 (fun y hy => hid y (List.mem_cons_of_mem _ hy))⟩
      intro y hy
      rcases (insertDesc_mem r xs y).1 hy with rfl | hy'
      · rcases lt_or_eq_of_le h with hlt | heq
        · exact Or.inl hlt
        · exact Or.inr ⟨heq.symm, hid x (List.mem_cons_self _ _)⟩
      · exact hl.1 y hy'
    · push_neg at h
      rw [List.pairwise_cons]
      refine ⟨?_, List.pairwise_cons.2 ⟨hl.1, hl.2⟩⟩
      intro y hy
      rcases List.mem_cons.1 hy with rfl | hy'
      · exact Or.inl h
      · rcases hl.1 y hy' with h1 | h2
        · exact Or.inl (lt_trans h1 h)
        · exact Or.inl (by rw [← h2.1]; exact h)

/-- The full scan sort is sorted by `created_at` descending with ties in
id-ascending order, for any accumulator the invariant admits. -/
theorem sortDesc_aux (rows : List HistoryManager.HRow)
    (acc : List HistoryManager.HRow)
    (hacc : acc.Pairwise (fun a b => b.created_at < a.created_at ∨
      (a.created_at = b.created_at ∧ a.id < b.id)))
    (hids : ∀ x ∈ acc, ∀ r ∈ rows, x.id < r.id)
    (hrows : rows.Pairwise (fun a b => a.id < b.id)) :
    (rows.foldl (fun a r => HistoryManager.insertDesc r a) acc).Pairwise
      (fun a b => b.created_at < a.created_at ∨
        (a.created_at = b.created_at ∧ a.id < b.id)) := by
  induction rows generalizing acc with
  | nil => simpa using hacc
  | cons r rest ih =>
    rw [List.pairwise_cons] at hrows
    apply ih
    · exact insertDesc_pairwise r acc hacc
        (fun x hx => hids x hx r (List.mem_cons_self _ _))
    · intro x hx r' hr'
      rcases (insertDesc_mem r acc x).1 hx with rfl | hx'
      · exact hrows.1 r' hr'
      · exact hids x hx' r' (List.mem_cons_of_mem _ hr')
    · exact hrows.2

/-- Inserting a row newer than everything placed so far puts it in front. -/
theorem insertDesc_all_lt (r : HistoryManager.HRow)
    (l : List HistoryManager.HRow)
    (h : ∀ x ∈ l, x.created_at < r.created_at) :
    HistoryManager.insertDesc r l = r :: l := by
  cases l with
  | nil => rfl
  | cons x xs =>
    simp only [HistoryManager.insertDesc]
    rw [if_neg]
    exact not_le.2 (h x (List.mem_cons_self _ _))

/-- With strictly increasing timestamps the scan sort is exactly the
reverse of the scan. -/
theorem sortDesc_strict_aux (rows : List HistoryManager.HRow)
    (acc : List HistoryManager.HRow)
    (hlt : ∀ x ∈ acc, ∀ r ∈ rows, x.created_at < r.created_at)
    (hrows : rows.Pairwise (fun a b => a.created_at < b.created_at)) :
    rows.foldl (fun a r => HistoryManager.insertDesc r a) acc =
      rows.reverse ++ acc := by
  induction rows generalizing acc with
  | nil => simp
  | cons r rest ih =>
    rw [List.pairwise_cons] at hrows
    have h1 : HistoryManager.insertDesc r acc = r :: acc :=
      insertDesc_all_lt r acc (fun x hx => hlt x hx r (List.mem_cons_self _ _))
    simp only [List.foldl_cons, h1]
    rw [ih (r :: acc) ?_ hrows.2]
    · simp
    · intro x hx r' hr'
      rcases List.mem_cons.1 hx with rfl | hx'
      · exact hrows.1 r' hr'
      · exact hlt x hx' r' (List.mem_cons_of_mem _ hr')

/-- C3 counterexample: two records appended with the same
`CURRENT_TIMESTAMP` second come back from `get_history` in id-ascending
order `[1, 2]` — `ORDER BY created_at DESC` has no id tie-break, so the
claimed strictly-descending, id-descending-on-ties order fails. -/
theorem get_history_tie_order_counterexample :
    (HistoryManager.get_history HistoryManager.dbTie 2 0).map
        (fun r => r.id) = [1, 2] ∧
    ¬ (HistoryManager.get_history HistoryManager.dbTie 2 0).Pairwise
        (fun a b => b.created_at < a.created_at ∨
          (a.created_at = b.created_at ∧ b.id < a.id)) := by
  constructor
  · rfl
  · decide

/-- C3 amended: `get_history` returns records in non-increasing (not
strictly decreasing) `created_at` order; records with equal `created_at`
appear in insertion (id-ascending) order, not id-descending; and when all
creation times are strictly increasing — timestamps one second apart or
more — listing everything returns the rows newest-first with the
just-appended record first. -/
theorem get_history_order_amended (db : HistoryManager.HDB)
    (limit offset : Nat)
    (hids : db.rows.Pairwise (fun a b => a.id < b.id)) :
    ((HistoryManager.get_history db limit offset).Pairwise
      (fun a b => b.created_at < a.created_at ∨
        (a.created_at = b.created_at ∧ a.id < b.id))) ∧
    (db.rows.Pairwise (fun a b => a.created_at < b.created_at) →
      HistoryManager.get_history db db.rows.length 0 = db.rows.reverse) := by
  constructor
  · have hs := sortDesc_aux db.rows [] (by simp) (by simp) hids
    have hsub : List.Sublist
        (((HistoryManager.sortDesc db.rows).drop offset).take limit)
        (HistoryManager.sortDesc db.rows) :=
      List.Sublist.trans (List.take_sublist _ _) (List.drop_sublist _ _)
    exact List.Pairwise.sublist hsub hs
  · intro hcr
    unfold HistoryManager.get_history HistoryManager.sortDesc
    rw [sortDesc_strict_aux db.rows [] (by simp) hcr]
    rw [List.append_nil, List.drop_zero, ← List.length_reverse, List.take_length]

/-- C3 amended witness: two records one second apart come back
newest-first, the just-appended record first. -/
theorem get_history_order_amended_witness :
    HistoryManager.get_history HistoryManager.dbInc
        HistoryManager.dbInc.rows.length 0 =
      HistoryManager.dbInc.rows.reverse := by
  have h := get_history_order_amended HistoryManager.dbInc 2 0 (by decide)
  exact h.2 (by decide)

/-- A character surviving at the front of `dropWhile p` fails `p`. -/
theorem dropWhile_head_false (p : Char → Bool) (l : List Char) (a : Char)
    (t : List Char) (h : List.dropWhile p l = a :: t) : p a = false := by
  induction l with
  | nil => simp [List.dropWhile] at h
  | cons c cs ih =>
    rw [List.dropWhile_cons] at h
    by_cases hc : p c = true
    · rw [if_pos hc] at h
      exact ih h
    · rw [if_neg hc] at h
      cases h
      simpa using hc

/-- Stripping from the right keeps the left-stripped head in place, so a
second left strip is a no-op. -/
theorem dropWhile_strip_fix (m0 : List Char) :
    List.dropWhile isSpc (List.rdropWhile isSpc (List.dropWhile isSpc m0)) =
      List.rdropWhile isSpc (List.dropWhile isSpc m0) := by
  rcases hX : List.rdropWhile isSpc (List.dropWhile isSpc m0) with _ | ⟨a, l⟩
  · simp
  · have hX2 : List.dropWhile isSpc (List.dropWhile isSpc m0).reverse =
        (a :: l).reverse := by
      have := congrArg List.reverse hX
      simpa [List.rdropWhile] using this
    obtain ⟨t, ht⟩ := List.dropWhile_suffix
      (l := (List.dropWhile isSpc m0).reverse) (p := isSpc)
    have hm : List.dropWhile isSpc m0 = a :: (l ++ t.reverse) := by
      have h1 : List.dropWhile isSpc m0 =
          (t ++ List.dropWhile isSpc (List.dropWhile isSpc m0).reverse).reverse := by
        rw [ht, List.reverse_reverse]
      rw [h1, hX2, List.reverse_append, List.reverse_reverse]
      simp
    have ha : isSpc a = false := dropWhile_head_false isSpc m0 a _ hm
    rw [List.dropWhile_cons, if_neg]
    simp [ha]

/-- `str.strip()` is idempotent. -/
theorem pyStripL_idem (cs : List Char) : pyStripL (pyStripL cs) = pyStripL cs := by
  have he : ∀ m : List Char, pyStripL m =
      List.rdropWhile isSpc (List.dropWhile isSpc m) := by
    intro m
    simp [pyStripL, List.rdropWhile]
  rw [he, he, dropWhile_strip_fix, List.rdropWhile_idempotent]

/-- A string starting with a nonempty pattern is nonempty. -/
theorem startsW_ne_nil (p : Char) (ps s : List Char)
    (h : startsW (p :: ps) s = true) : s ≠ [] := by
  cases s with
  | nil => simp [startsW] at h
  | cons a t => simp

/-- `startswith` is stable under appending to the right. -/
theorem startsW_append (pat pre t : List Char) (h : startsW pat pre = true) :
    startsW pat (pre ++ t) = true := by
  induction pat generalizing pre with
  | nil => simp [startsW]
  | cons p ps ih =>
    cases pre with
    | nil => simp [startsW] at h
    | cons c cs =>
      rw [List.cons_append]
      simp only [startsW, Bool.and_eq_true] at h ⊢
      exact ⟨h.1, ih cs h.2⟩

/-- Prepending the png data-URL header to a stripped value yields a stripped
value: the header starts with `d` and a stripped tail cannot end in
whitespace (when the tail is empty the header's final comma is last). -/
theorem pyStripL_pngHeader_append (cs : List Char) :
    pyStripL (DoubaoImageService.pngHeader ++ pyStripL cs) =
      DoubaoImageService.pngHeader ++ pyStripL cs := by
  have hrev : (pyStripL cs).reverse =
      List.dropWhile isSpc ((List.dropWhile isSpc cs).reverse) := by
    simp [pyStripL]
  have hleft : List.dropWhile isSpc
      (DoubaoImageService.pngHeader ++ pyStripL cs) =
      DoubaoImageService.pngHeader ++ pyStripL cs := by
    have hP : DoubaoImageService.pngHeader ++ pyStripL cs =
        'd' :: ("ata:image/png;base64,".data ++ pyStripL cs) := rfl
    rw [hP, List.dropWhile_cons, if_neg]
    simp [isSpc]
  have hright : List.rdropWhile isSpc
      (DoubaoImageService.pngHeader ++ pyStripL cs) =
      DoubaoImageService.pngHeader ++ pyStripL cs := by
    simp only [List.rdropWhile, List.reverse_append]
    rcases hX : (pyStripL cs).reverse with _ | ⟨a, l⟩
    · have hcs : pyStripL cs = [] := by
        have := congrArg List.reverse hX
        simpa using this
      rw [hcs]
      simp only [List.nil_append, List.append_nil]
      have hdP : List.dropWhile isSpc
          (DoubaoImageService.pngHeader).reverse =
          (DoubaoImageService.pngHeader).reverse := by decide
      rw [hdP, List.reverse_reverse]
    · have ha : isSpc a = false := by
        rw [hrev] at hX
        exact dropWhile_head_false isSpc (List.dropWhile isSpc cs).reverse a l hX
      rw [List.cons_append, List.dropWhile_cons, if_neg]
      · have : (a :: (l ++ (DoubaoImageService.pngHeader).reverse)).reverse =
            DoubaoImageService.pngHeader ++ (a :: l).reverse := by
          simp
        rw [this, ← hX, List.reverse_reverse]
      · simp [ha]
  have he : pyStripL (DoubaoImageService.pngHeader ++ pyStripL cs) =
      List.rdropWhile isSpc (List.dropWhile isSpc
        (DoubaoImageService.pngHeader ++ pyStripL cs)) := by
    simp [pyStripL, List.rdropWhile]
  rw [he, hleft, hright]

/-- C9: `_ensure_data_url` is idempotent — the output of one application
(an empty value, a stripped value already carrying a `data:` prefix, or the
png header glued onto a stripped value) is a fixed point of a second
application. -/
theorem ensure_data_url_idempotent (s : String) :
    DoubaoImageService.ensure_data_url (DoubaoImageService.ensure_data_url s) =
      DoubaoImageService.ensure_data_url s := by
  suffices h : ∀ cs : List Char,
      DoubaoImageService.ensure_data_url_L
        (DoubaoImageService.ensure_data_url_L cs) =
      DoubaoImageService.ensure_data_url_L cs by
    unfold DoubaoImageService.ensure_data_url
    exact congrArg String.mk (h s.data)
  intro cs
  by_cases h0 : cs = []
  · simp [DoubaoImageService.ensure_data_url_L, h0]
  · by_cases hd : startsW DoubaoImageService.dataColon (pyStripL cs) = true
    · have hfc : DoubaoImageService.ensure_data_url_L cs = pyStripL cs := by
        simp [DoubaoImageService.ensure_data_url_L, h0, hd]
      have hne : pyStripL cs ≠ [] := startsW_ne_nil 'd' _ _ hd
      have hd2 : startsW DoubaoImageService.dataColon
          (pyStripL (pyStripL cs)) = true := by
        rw [pyStripL_idem]
        exact hd
      rw [hfc]
      simp [DoubaoImageService.ensure_data_url_L, hne, hd2, pyStripL_idem, hd]
    · have hfc : DoubaoImageService.ensure_data_url_L cs =
          DoubaoImageService.pngHeader ++ pyStripL cs := by
        simp [DoubaoImageService.ensure_data_url_L, h0, hd]
      have hne : DoubaoImageService.pngHeader ++ pyStripL cs ≠ [] := by
        simp [DoubaoImageService.pngHeader]
      have hsw : startsW DoubaoImageService.dataColon
          (pyStripL (DoubaoImageService.pngHeader ++ pyStripL cs)) = true := by
        rw [pyStripL_pngHeader_append]
        exact startsW_append _ _ _ (by decide)
      have hsw2 : startsW DoubaoImageService.dataColon
          (DoubaoImageService.pngHeader ++ pyStripL cs) = true :=
        startsW_append _ _ _ (by decide)
      rw [hfc]
      simp [DoubaoImageService.ensure_data_url_L, hne, hsw, hsw2,
        pyStripL_pngHeader_append]

/-- C2 counterexample: the DALL-E adapter's results carry no `"message"`
key at all — neither the unconfigured-credential failure (which uses
`"error"`) nor a successful 200 result — refuting "every CanonicalResult
contains a message string". -/
theorem dalle_result_without_message_counterexample :
    hasKey (DalleService.generate_image Option.none "a cat" "1024x1024"
        "standard" 1 NetOutcome.timeout).1 "message" = false ∧
    hasKey (DalleService.generate_image (some "k") "a cat" "1024x1024"
        "standard" 1 (NetOutcome.ok 200 ""
          [("data", .list [.dict [("url", .str "http:u")]])])).1
      "message" = false ∧
    pyGet (DalleService.generate_image (some "k") "a cat" "1024x1024"
        "standard" 1 (NetOutcome.ok 200 ""
          [("data", .list [.dict [("url", .str "http:u")]])])).1
      "success" = some (.bool true) := by
  refine ⟨rfl, rfl, rfl⟩

set_option maxHeartbeats 2000000 in
/-- C2 amended: every adapter result except DALL-E's and Stable
Diffusion's always contains a human-readable `"message"` string — in the
credential guard, timeout, exception, non-200, parse-failure and success
branches alike. The DALL-E and Stable Diffusion adapters never produce a
`"message"`: they attach an `"error"` diagnostic exactly on failure and no
narration on success. -/
theorem adapters_message_presence_amended :
    (∀ k model prompt ar sz ref net,
      hasKey (GeminiImageService.generate_image k model prompt ar sz ref
        net).1 "message" = true)
  ∧ (∀ k model prompt ar sz ref rf sm mi wm so net,
      hasKey (DoubaoImageService.generate_image k model prompt ar sz ref rf
        sm mi wm so net).1 "message" = true)
  ∧ (∀ k sm msgs m net,
      hasKey (ChatService.chat_completion k sm msgs m net).1 "message" = true)
  ∧ (∀ k sm t tp mct msgs m net,
      hasKey (MimoChatService.chat_completion k sm t tp mct msgs m net).1
        "message" = true)
  ∧ (∀ k sm prompt o d wm pv imgs net,
      hasKey (SoraVideoService.create_video k sm prompt o d wm pv imgs
        net).1 "message" = true)
  ∧ (∀ k t net,
      hasKey (SoraVideoService.query_video k t net).1 "message" = true)
  ∧ (∀ k sm prompt m ar ep eu imgs net,
      hasKey (VeoVideoService.create_video k sm prompt m ar ep eu imgs
        net).1 "message" = true)
  ∧ (∀ k t net,
      hasKey (VeoVideoService.query_video k t net).1 "message" = true)
  ∧ (∀ k model path prompt ck fe fs eo enc net,
      hasKey (VideoAnalysisService.analyze_video k model path prompt ck fe
        fs eo enc net).1 "message" = true)
  ∧ (∀ k prompt size quality n net,
      hasKey (DalleService.generate_image k prompt size quality n net).1
        "message" = false ∧
      (hasKey (DalleService.generate_image k prompt size quality n net).1
          "error" = true ↔
        pyGet (DalleService.generate_image k prompt size quality n net).1
          "success" = some (.bool false)))
  ∧ (∀ k prompt w h steps net,
      hasKey (StableDiffusionService.generate_image k prompt w h steps
        net).1 "message" = false ∧
      (hasKey (StableDiffusionService.generate_image k prompt w h steps
          net).1 "error" = true ↔
        pyGet (StableDiffusionService.generate_image k prompt w h steps
          net).1 "success" = some (.bool false))) := by
  refine ⟨?_, ?_, ?_, ?_, ?_, ?_, ?_, ?_, ?_, ?_, ?_⟩
  · intro k model prompt ar sz ref net
    unfold GeminiImageService.generate_image
    cases net <;> repeat' split <;> try simp [hasKey, pyGet]
  · intro k model prompt ar sz ref rf sm mi wm so net
    unfold DoubaoImageService.generate_image
    cases net <;> repeat' split <;> try simp [hasKey, pyGet]
  · intro k sm msgs m net
    unfold ChatService.chat_completion
    cases net <;> repeat' split <;> try simp [hasKey, pyGet]
  · intro k sm t tp mct msgs m net
    unfold MimoChatService.chat_completion
    cases net <;> repeat' split <;> try simp [hasKey, pyGet]
  · intro k sm prompt o d wm pv imgs net
    unfold SoraVideoService.create_video
    cases net <;> repeat' split <;> try simp [hasKey, pyGet]
  · intro k t net
    unfold SoraVideoService.query_video queryVideo200
    cases net <;> repeat' split <;> try simp [hasKey, pyGet, pySet]
  · intro k sm prompt m ar ep eu imgs net
    unfold VeoVideoService.create_video
    cases net <;> repeat' split <;> try simp [hasKey, pyGet]
  · intro k t net
    unfold VeoVideoService.query_video queryVideo200
    cases net <;> repeat' split <;> try simp [hasKey, pyGet, pySet]
  · intro k model path prompt ck fe fs eo enc net
    unfold VideoAnalysisService.analyze_video
    cases net <;> repeat' split <;> try simp [hasKey, pyGet]
  · intro k prompt size quality n net
    unfold DalleService.generate_image
    cases net <;> repeat' split <;> try simp [hasKey, pyGet]
  · intro k prompt w h steps net
    unfold StableDiffusionService.generate_image
    cases net <;> repeat' split <;> try simp [hasKey, pyGet]
